import Mathlib

/-!
Verification of the go-game-explorer live-streaming core (src/main.go).

The Go program keeps an in-memory catalog of games behind a reader/writer
lock, refreshes it from a remote API, and streams randomly sampled games
to clients over Server-Sent Events.  The definitions below are a shallow
embedding of that code:

* `Game` mirrors the `Game` struct (src/main.go:17-28) with its JSON tags.
* `GameStore` mirrors the `games []Game` field of the store
  (src/main.go:30-33); the `sync.RWMutex` is modelled by treating each
  locked method body as one atomic step (see `runOps`).
* `setGames`, `getRandom`, `count` mirror `SetGames`, `GetRandom`,
  `Count` (src/main.go:37-56).  `rand.Intn n` is modelled by an oracle
  natural number reduced modulo `n`, which ranges over exactly `[0, n)`.
* `fetchGames` mirrors `fetchGames` (src/main.go:58-74): the network call
  and the JSON decode are black boxes whose outcome is passed in as a
  `FetchResult`.
* `marshalGame` mirrors Go's `encoding/json` marshalling of `Game`
  (field order is struct order, default HTML-escaping on).
* `sendGame`, `streamEmissions`, `streamHandler` mirror the SSE handler
  `streamHandler` (src/main.go:122-161): one emission happens before the
  ticker starts, then one emission per ticker firing until the request
  context is cancelled; a transport without `http.Flusher` gets an
  immediate 500 response and no stream.
* `statsHandler` mirrors `statsHandler` (src/main.go:115-120).
-/

/-- The `Game` struct (src/main.go:17-28).  Field names follow the JSON
tags used by `encoding/json`. -/
structure Game where
  id : Int
  title : String
  thumbnail : String
  short_description : String
  game_url : String
  genre : String
  platform : String
  publisher : String
  developer : String
  release_date : String
deriving Repr, DecidableEq

/-- The zero value `Game\x7b\x7d` returned by `GetRandom` on an empty
catalog (src/main.go:47). -/
def zeroGame : Game :=
  { id := 0, title := "", thumbnail := "", short_description := "",
    game_url := "", genre := "", platform := "", publisher := "",
    developer := "", release_date := "" }

/-- The mutable state of `GameStore` (src/main.go:30-33): the `games`
slice.  The `sync.RWMutex` is modelled by atomicity of each method body
in the trace semantics `runOps`. -/
structure GameStore where
  games : List Game
deriving Repr, DecidableEq

/-- `GameStore.SetGames` (src/main.go:37-41): under the exclusive lock,
replace the whole slice with the argument. -/
def setGames (_s : GameStore) (gs : List Game) : GameStore :=
  { games := gs }

/-- `rand.Intn` (used at src/main.go:49) draws uniformly from `[0, n)`;
we model the draw by an arbitrary oracle value reduced modulo `n`. -/
def randIntn (r n : Nat) : Nat := r % n

/-- `GameStore.GetRandom` (src/main.go:43-50): under the read lock, if
the slice is empty return the zero `Game` and `false`; otherwise index
the slice at `rand.Intn (len s.games)` and return it with `true`. -/
def getRandom (s : GameStore) (r : Nat) : Game × Bool :=
  if s.games.length = 0 then (zeroGame, false)
  else (s.games.getD (randIntn r s.games.length) zeroGame, true)

/-- `GameStore.Count` (src/main.go:52-56): length of the current slice,
read under the read lock. -/
def count (s : GameStore) : Nat := s.games.length

/-- Outcome of the black-box fetch in `fetchGames` (src/main.go:58-69):
the HTTP GET can fail, the JSON decode can fail, or a list of games is
decoded. -/
inductive FetchResult where
  | netErr : String → FetchResult
  | decodeErr : String → FetchResult
  | ok : List Game → FetchResult
deriving Repr, DecidableEq

/-- `fetchGames` (src/main.go:58-74): on a network error or decode error
it returns the error without touching the store; on success it installs
the decoded list via `SetGames` and returns no error. -/
def fetchGames (s : GameStore) (res : FetchResult) : GameStore × Option String :=
  match res with
  | .netErr e => (s, some e)
  | .decodeErr e => (s, some e)
  | .ok gs => (setGames s gs, none)

/-- The startup step of `main` (src/main.go:79-81): call `fetchGames`,
log on error, and continue with whatever store state resulted. -/
def startupStore (s : GameStore) (res : FetchResult) : GameStore :=
  (fetchGames s res).1

/-- The JSON body produced by `statsHandler` (src/main.go:115-120). -/
structure StatsResponse where
  total_games : Nat
  status : String
deriving Repr, DecidableEq

/-- `statsHandler` (src/main.go:115-120): reports the store count and a
fixed "online" status. -/
def statsHandler (s : GameStore) : StatsResponse :=
  { total_games := count s, status := "online" }

/-- Lowercase hexadecimal digit, as used by Go's `encoding/json` when
emitting `\u00XX` escapes. -/
def hexDigit (n : Nat) : Char :=
  if n < 10 then Char.ofNat (48 + n) else Char.ofNat (87 + n)

/-- Escaping of one character by Go's `encoding/json` string encoder
with the default HTML escaping that `json.Marshal` applies: quote,
backslash, `<`, `>`, `&`, the short control escapes, other control
characters as `\u00XX`, and the line separators U+2028/U+2029. -/
def escapeChar (c : Char) : String :=
  if c = '"' then "\\\""
  else if c = '\\' then "\\\\"
  else if c = '<' then "\\u003c"
  else if c = '>' then "\\u003e"
  else if c = '&' then "\\u0026"
  else if c = '\n' then "\\n"
  else if c = '\r' then "\\r"
  else if c = '\t' then "\\t"
  else if c.toNat < 32 then
    "\\u00" ++ String.singleton (hexDigit (c.toNat / 16))
            ++ String.singleton (hexDigit (c.toNat % 16))
  else if c = ' ' then "\\u2028"
  else if c = ' ' then "\\u2029"
  else String.singleton c

/-- JSON string literal for `s`, as produced by Go's `encoding/json`. -/
def quoteString (s : String) : String :=
  "\"" ++ String.join (s.data.map escapeChar) ++ "\""

/-- The field list `json.Marshal` emits for a `Game` value: struct-order
pairs of JSON key and rendered JSON value, following the struct tags at
src/main.go:17-28.  `id` is rendered as a JSON integer, every other
field as a JSON string. -/
def gameFields (g : Game) : List (String × String) :=
  [("id", toString g.id),
   ("title", quoteString g.title),
   ("thumbnail", quoteString g.thumbnail),
   ("short_description", quoteString g.short_description),
   ("game_url", quoteString g.game_url),
   ("genre", quoteString g.genre),
   ("platform", quoteString g.platform),
   ("publisher", quoteString g.publisher),
   ("developer", quoteString g.developer),
   ("release_date", quoteString g.release_date)]

/-- `json.Marshal(game)` at src/main.go:142: the object literal built
from `gameFields` in struct order. -/
def marshalGame (g : Game) : String :=
  "\x7b" ++
    String.intercalate ","
      ((gameFields g).map (fun p => quoteString p.1 ++ ":" ++ p.2)) ++
  "\x7d"

/-- The exact error-event frame written at src/main.go:138 when the
catalog is empty. -/
def errorEventMsg : String :=
  "event: error\ndata: \x7b\"message\":\"No games available\"\x7d\n\n"

/-- The `sendGame` closure (src/main.go:135-145): sample a game; if none
is available write the error-event frame, otherwise write the marshalled
game framed as `data: <json>\n\n`.  Both paths flush and return to the
loop. -/
def sendGame (s : GameStore) (r : Nat) : String :=
  let gr := getRandom s r
  if gr.2 then "data: " ++ marshalGame gr.1 ++ "\n\n"
  else errorEventMsg

/-- The messages a stream session emits (src/main.go:147-160) when the
request context is cancelled after `ticks` ticker firings: one call of
`sendGame` immediately (index 0, before the ticker is even created),
then one call per firing of the 3-second ticker (index `k` for firing
`k`).  `cat k` is the store snapshot `GetRandom` captures at emission
`k`, and `rnd k` the random oracle for that emission. -/
def streamEmissions (cat : Nat → GameStore) (rnd : Nat → Nat) (ticks : Nat) :
    List String :=
  (List.range (ticks + 1)).map (fun k => sendGame (cat k) (rnd k))

/-- Input to one run of `streamHandler`: whether the response writer
supports `http.Flusher`, the store snapshots and random draws seen by
successive emissions, and the number of ticker firings before the
context is cancelled. -/
structure StreamInput where
  flusherOk : Bool
  catalogs : Nat → GameStore
  rands : Nat → Nat
  ticks : Nat

/-- Observable outcome of `streamHandler`: either an immediate JSON
error response with a status code and no stream, or the ordered list of
emitted SSE frames. -/
inductive StreamOutcome where
  | errorResponse : Nat → String → StreamOutcome
  | stream : List String → StreamOutcome
deriving Repr, DecidableEq

/-- The SSE frames actually written to the connection in an outcome: an
error response writes none. -/
def emittedFrames : StreamOutcome → List String
  | .errorResponse _ _ => []
  | .stream ms => ms

/-- `streamHandler` (src/main.go:122-161): if the writer is not an
`http.Flusher`, respond `500 \x7b"error":"SSE not supported"\x7d` and
return before any emission; otherwise emit per `streamEmissions` until
the context is cancelled. -/
def streamHandler (inp : StreamInput) : StreamOutcome :=
  if inp.flusherOk then
    .stream (streamEmissions inp.catalogs inp.rands inp.ticks)
  else
    .errorResponse 500 "SSE not supported"

/-- One store operation as issued by a concurrent caller.  Because every
method of `GameStore` holds the `sync.RWMutex` for its whole body
(src/main.go:37-56) — in particular `GetRandom` reads the length and
indexes the slice under one read lock — concurrent executions linearize:
any interleaving is some sequence of atomic operations. -/
inductive StoreOp where
  | replace : List Game → StoreOp
  | sample : Nat → StoreOp
  | size : StoreOp
deriving Repr, DecidableEq

/-- The value returned to the caller of one operation. -/
inductive OpResult where
  | replaced : OpResult
  | sampled : Game → Bool → OpResult
  | counted : Nat → OpResult
deriving Repr, DecidableEq

/-- Run a linearized schedule of store operations from state `s`,
collecting each caller's result in order. -/
def runOps (s : GameStore) : List StoreOp → List OpResult
  | [] => []
  | .replace gs :: rest => .replaced :: runOps (setGames s gs) rest
  | .sample r :: rest =>
      .sampled (getRandom s r).1 (getRandom s r).2 :: runOps s rest
  | .size :: rest => .counted (count s) :: runOps s rest

/-- The complete catalogs installed during a schedule: the initial one
plus every list passed to `Replace`. -/
def installedCatalogs (s : GameStore) (ops : List StoreOp) : List (List Game) :=
  s.games :: ops.filterMap (fun op =>
    match op with
    | .replace gs => some gs
    | _ => none)

/-- A default-valued lookup inside the list's bounds yields an element
of the list. -/
lemma List.getD_mem_of_lt {α : Type} (l : List α) (i : Nat) (d : α)
    (h : i < l.length) : l.getD i d ∈ l := by
  rw [List.getD_eq_getElem?_getD]
  simp [List.getElem?_eq_getElem h]

/-- On a nonempty slice, `GetRandom` indexes in bounds and returns an
element of that slice. -/
lemma getRandom_fst_mem (s : GameStore) (r : Nat) (h : s.games.length ≠ 0) :
    (getRandom s r).1 ∈ s.games := by
  have hpos : 0 < s.games.length := Nat.pos_of_ne_zero h
  have hi : randIntn r s.games.length < s.games.length := Nat.mod_lt _ hpos
  simp only [getRandom, if_neg h]
  exact List.getD_mem_of_lt _ _ _ hi

/-- `GetRandom` reports `found = true` exactly on nonempty slices. -/
lemma getRandom_snd_eq (s : GameStore) (r : Nat) :
    (getRandom s r).2 = !decide (s.games.length = 0) := by
  by_cases h : s.games.length = 0 <;> simp [getRandom, h]

/-- C1: for every catalog with at least one item installed in the store,
`GetRandom` returns `found = true` together with an element of the
currently installed slice, whose identifier lies in the snapshot's
identifier set. -/
theorem getRandom_nonempty_found (s : GameStore) (r : Nat)
    (h : s.games ≠ []) :
    (getRandom s r).2 = true ∧ (getRandom s r).1 ∈ s.games ∧
      (getRandom s r).1.id ∈ s.games.map Game.id := by
  have hlen : s.games.length ≠ 0 := by
    simpa [List.length_eq_zero] using h
  have hmem := getRandom_fst_mem s r hlen
  refine ⟨?_, hmem, List.mem_map_of_mem Game.id hmem⟩
  simp [getRandom_snd_eq, hlen]

/-- Witness for C1 on a concrete two-item catalog. -/
theorem getRandom_nonempty_found_witness :
    ([⟨1, "a", "", "", "", "", "", "", "", ""⟩,
      ⟨2, "b", "", "", "", "", "", "", "", ""⟩] : List Game) ≠ [] ∧
    ((getRandom ⟨[⟨1, "a", "", "", "", "", "", "", "", ""⟩,
                  ⟨2, "b", "", "", "", "", "", "", "", ""⟩]⟩ 5).2 = true ∧
      (getRandom ⟨[⟨1, "a", "", "", "", "", "", "", "", ""⟩,
                   ⟨2, "b", "", "", "", "", "", "", "", ""⟩]⟩ 5).1 ∈
        ([⟨1, "a", "", "", "", "", "", "", "", ""⟩,
          ⟨2, "b", "", "", "", "", "", "", "", ""⟩] : List Game) ∧
      (getRandom ⟨[⟨1, "a", "", "", "", "", "", "", "", ""⟩,
                   ⟨2, "b", "", "", "", "", "", "", "", ""⟩]⟩ 5).1.id ∈
        ([⟨1, "a", "", "", "", "", "", "", "", ""⟩,
          ⟨2, "b", "", "", "", "", "", "", "", ""⟩] : List Game).map Game.id) :=
  ⟨by decide, getRandom_nonempty_found _ 5 (by decide)⟩

/-- C2: whenever the current catalog is empty, `GetRandom` returns the
zero-value `Game` and `found = false`; the indexing branch is never
reached. -/
theorem getRandom_empty_not_found (s : GameStore) (r : Nat)
    (h : s.games = []) : getRandom s r = (zeroGame, false) := by
  simp [getRandom, h]

/-- Witness for C2 at the empty store. -/
theorem getRandom_empty_not_found_witness :
    getRandom ⟨[]⟩ 7 = (zeroGame, false) :=
  getRandom_empty_not_found ⟨[]⟩ 7 rfl

/-- C3: when the fetch fails at either step (network error or decode
error), `fetchGames` returns the error without calling `SetGames`, so
the catalog is exactly what it was, and `main` just logs and continues
with that store. -/
theorem fetchGames_failure_preserves_store (s : GameStore)
    (res : FetchResult) (h : (fetchGames s res).2.isSome = true) :
    (fetchGames s res).1 = s ∧ startupStore s res = s := by
  cases res with
  | netErr e => exact ⟨rfl, rfl⟩
  | decodeErr e => exact ⟨rfl, rfl⟩
  | ok gs => simp [fetchGames] at h

/-- Witness for C3 on a concrete network failure. -/
theorem fetchGames_failure_preserves_store_witness :
    (fetchGames ⟨[zeroGame]⟩ (.netErr "timeout")).2.isSome = true ∧
      ((fetchGames ⟨[zeroGame]⟩ (.netErr "timeout")).1 = ⟨[zeroGame]⟩ ∧
        startupStore ⟨[zeroGame]⟩ (.netErr "timeout") = ⟨[zeroGame]⟩) :=
  ⟨rfl, fetchGames_failure_preserves_store _ _ rfl⟩

/-- C4: `SetGames` installs exactly the given list — afterwards `Count`
is the length of the list — and the stats endpoint then reports that
count with status "online"; in particular a 7-item install reports
`total_games = 7`. -/
theorem setGames_total_replacement (s t : GameStore) (items : List Game) :
    count (setGames s items) = items.length ∧
      statsHandler (setGames s items) =
        { total_games := items.length, status := "online" } ∧
      statsHandler (setGames t (List.replicate 7 zeroGame)) =
        { total_games := 7, status := "online" } := by
  refine ⟨rfl, rfl, ?_⟩
  simp [statsHandler, setGames, count]

/-- C10: a successful fetch that decodes to zero records installs the
empty list — `Count` becomes 0 and `GetRandom` reports `found = false`
— whereas a failed fetch leaves the previous catalog in place. -/
theorem fetch_empty_clears_catalog (s : GameStore) (e : String) (r : Nat) :
    (fetchGames s (.ok [])).1 = ⟨[]⟩ ∧
      count (fetchGames s (.ok [])).1 = 0 ∧
      (getRandom (fetchGames s (.ok [])).1 r).2 = false ∧
      (fetchGames s (.netErr e)).1 = s ∧
      (fetchGames s (.decodeErr e)).1 = s := by
  refine ⟨rfl, rfl, ?_, rfl, rfl⟩
  simp [fetchGames, setGames, getRandom]

/-- C5: a session whose transport supports flushing enters the emission
loop and, across its lifetime of `ticks` ticker firings, emits exactly
`ticks + 1` frames: frame 0 is emitted immediately (before the ticker is
created, src/main.go:148), and each firing `k` of the 3-second ticker
produces exactly the one frame at index `k` — never zero, never more. -/
theorem stream_one_frame_per_tick (inp : StreamInput)
    (h : inp.flusherOk = true) :
    streamHandler inp =
        .stream (streamEmissions inp.catalogs inp.rands inp.ticks) ∧
      (streamEmissions inp.catalogs inp.rands inp.ticks).length =
        inp.ticks + 1 ∧
      (streamEmissions inp.catalogs inp.rands inp.ticks).head? =
        some (sendGame (inp.catalogs 0) (inp.rands 0)) ∧
      ∀ k, k ≤ inp.ticks →
        (streamEmissions inp.catalogs inp.rands inp.ticks).get? k =
          some (sendGame (inp.catalogs k) (inp.rands k)) := by
  refine ⟨by simp [streamHandler, h], by simp [streamEmissions], ?_, ?_⟩
  · have h0 : 0 < inp.ticks + 1 := Nat.succ_pos _
    simp [streamEmissions, List.head?_eq_getElem?,
      List.getElem?_map, List.getElem?_range h0]
  · intro k hk
    have hk1 : k < inp.ticks + 1 := Nat.lt_succ_of_le hk
    simp [streamEmissions, List.get?_eq_getElem?,
      List.getElem?_map, List.getElem?_range hk1]

/-- Witness for C5: a two-tick session over a constant empty catalog. -/
theorem stream_one_frame_per_tick_witness :
    (StreamInput.mk true (fun _ => ⟨[]⟩) (fun _ => 0) 2).flusherOk = true ∧
      (streamEmissions (fun _ => (⟨[]⟩ : GameStore)) (fun _ => 0) 2).length
        = 3 :=
  ⟨rfl, (stream_one_frame_per_tick
    (StreamInput.mk true (fun _ => ⟨[]⟩) (fun _ => 0) 2) rfl).2.1⟩

/-- C6: whenever the snapshot read by an emission step is empty, the
step writes the exact error-event frame instead of an item and the loop
continues — a session over empty catalogs still emits one frame per
tick — and a session opened against an empty catalog has this frame as
its first emitted message. -/
theorem stream_empty_catalog_error_event (s : GameStore) (r : Nat)
    (cat : Nat → GameStore) (rnd : Nat → Nat) (ticks : Nat)
    (hs : count s = 0) (hc : cat 0 = ⟨[]⟩) :
    sendGame s r = errorEventMsg ∧
      (streamEmissions cat rnd ticks).length = ticks + 1 ∧
      (streamEmissions cat rnd ticks).head? = some errorEventMsg := by
  have hlen : s.games.length = 0 := hs
  have hsend : sendGame s r = errorEventMsg := by
    simp [sendGame, getRandom, hlen]
  refine ⟨hsend, by simp [streamEmissions], ?_⟩
  have h0 : 0 < ticks + 1 := Nat.succ_pos _
  have : sendGame (cat 0) (rnd 0) = errorEventMsg := by
    simp [sendGame, getRandom, hc]
  simp [streamEmissions, List.head?_eq_getElem?, List.getElem?_map,
    List.getElem?_range h0, this]

/-- Witness for C6 at the empty store and a one-tick session. -/
theorem stream_empty_catalog_error_event_witness :
    count ⟨[]⟩ = 0 ∧
      (sendGame ⟨[]⟩ 3 = errorEventMsg ∧
        (streamEmissions (fun _ => (⟨[]⟩ : GameStore)) (fun _ => 3) 1).length
          = 2 ∧
        (streamEmissions (fun _ => (⟨[]⟩ : GameStore)) (fun _ => 3) 1).head?
          = some errorEventMsg) :=
  ⟨rfl, stream_empty_catalog_error_event ⟨[]⟩ 3 (fun _ => ⟨[]⟩)
    (fun _ => 3) 1 rfl rfl⟩

/-- C7: when the response writer does not support incremental flush, the
handler responds with the 500 capability error and returns before the
emission loop: no item frame and no error-event frame is written. -/
theorem stream_no_flusher_immediate_error (inp : StreamInput)
    (h : inp.flusherOk = false) :
    streamHandler inp = .errorResponse 500 "SSE not supported" ∧
      emittedFrames (streamHandler inp) = [] := by
  simp [streamHandler, h, emittedFrames]

/-- Witness for C7 on a concrete flush-incapable transport. -/
theorem stream_no_flusher_immediate_error_witness :
    (StreamInput.mk false (fun _ => ⟨[]⟩) (fun _ => 0) 5).flusherOk
        = false ∧
      (streamHandler (StreamInput.mk false (fun _ => ⟨[]⟩) (fun _ => 0) 5)
          = .errorResponse 500 "SSE not supported" ∧
        emittedFrames
          (streamHandler
            (StreamInput.mk false (fun _ => ⟨[]⟩) (fun _ => 0) 5)) = []) :=
  ⟨rfl, stream_no_flusher_immediate_error
    (StreamInput.mk false (fun _ => ⟨[]⟩) (fun _ => 0) 5) rfl⟩

/-- C8: every normal emission step is framed `data: <json>\n\n` where
`<json>` is the marshalling of the sampled item, an object whose keys
are exactly the ten tagged fields in struct order — `id` rendered as an
integer, the other nine as strings. -/
theorem stream_normal_frame_fields (s : GameStore) (r : Nat) (g : Game)
    (h : getRandom s r = (g, true)) :
    sendGame s r = "data: " ++ marshalGame g ++ "\n\n" ∧
      (gameFields g).map Prod.fst =
        ["id", "title", "thumbnail", "short_description", "game_url",
         "genre", "platform", "publisher", "developer", "release_date"] ∧
      (gameFields g).map Prod.snd =
        [toString g.id, quoteString g.title, quoteString g.thumbnail,
         quoteString g.short_description, quoteString g.game_url,
         quoteString g.genre, quoteString g.platform,
         quoteString g.publisher, quoteString g.developer,
         quoteString g.release_date] := by
  refine ⟨?_, rfl, rfl⟩
  simp [sendGame, h]

/-- Witness for C8 on a concrete one-item catalog. -/
theorem stream_normal_frame_fields_witness :
    getRandom ⟨[⟨9, "t", "u", "d", "w", "g", "p", "q", "v", "x"⟩]⟩ 0 =
        (⟨9, "t", "u", "d", "w", "g", "p", "q", "v", "x"⟩, true) ∧
      sendGame ⟨[⟨9, "t", "u", "d", "w", "g", "p", "q", "v", "x"⟩]⟩ 0 =
        "data: " ++
          marshalGame ⟨9, "t", "u", "d", "w", "g", "p", "q", "v", "x"⟩ ++
          "\n\n" :=
  ⟨by decide,
   (stream_normal_frame_fields
      ⟨[⟨9, "t", "u", "d", "w", "g", "p", "q", "v", "x"⟩]⟩ 0
      ⟨9, "t", "u", "d", "w", "g", "p", "q", "v", "x"⟩ (by decide)).1⟩

/-- C9: `SetGames` is atomic with respect to concurrent `GetRandom` and
`Count` calls.  In any linearized interleaving of store operations —
linearization is justified by the `sync.RWMutex` held across each whole
method body — every successful sample returns an item belonging to one
complete installed catalog (the initial one or one passed to a replace,
never a mix), and every count equals the length of one complete
installed catalog; out-of-range indexing cannot occur since a found
sample is a genuine element of its snapshot. -/
theorem runOps_snapshot_consistent (s : GameStore) (ops : List StoreOp) :
    (∀ g, OpResult.sampled g true ∈ runOps s ops →
        ∃ c ∈ installedCatalogs s ops, g ∈ c) ∧
      (∀ n, OpResult.counted n ∈ runOps s ops →
        ∃ c ∈ installedCatalogs s ops, n = c.length) := by
  induction ops generalizing s with
  | nil => simp [runOps]
  | cons op rest ih =>
    cases op with
    | replace gs =>
      constructor
      · intro g hg
        simp only [runOps, List.mem_cons] at hg
        rcases hg with hg | hg
        · cases hg
        · obtain ⟨c, hc, hgc⟩ := (ih (setGames s gs)).1 g hg
          refine ⟨c, ?_, hgc⟩
          simp only [installedCatalogs, setGames, List.filterMap_cons,
            List.mem_cons] at hc ⊢
          tauto
      · intro n hn
        simp only [runOps, List.mem_cons] at hn
        rcases hn with hn | hn
        · cases hn
        · obtain ⟨c, hc, hnc⟩ := (ih (setGames s gs)).2 n hn
          refine ⟨c, ?_, hnc⟩
          simp only [installedCatalogs, setGames, List.filterMap_cons,
            List.mem_cons] at hc ⊢
          tauto
    | sample r =>
      constructor
      · intro g hg
        simp only [runOps, List.mem_cons] at hg
        rcases hg with hg | hg
        · injection hg with hg1 hsnd
          rw [eq_comm] at hg1 hsnd
          have hlen : s.games.length ≠ 0 := by
            intro h0
            rw [getRandom_snd_eq] at hsnd
            simp [h0] at hsnd
          refine ⟨s.games, ?_, hg1 ▸ getRandom_fst_mem s r hlen⟩
          simp [installedCatalogs]
        · obtain ⟨c, hc, hgc⟩ := (ih s).1 g hg
          refine ⟨c, ?_, hgc⟩
          simp only [installedCatalogs, List.filterMap_cons,
            List.mem_cons] at hc ⊢
          tauto
      · intro n hn
        simp only [runOps, List.mem_cons] at hn
        rcases hn with hn | hn
        · cases hn
        · obtain ⟨c, hc, hnc⟩ := (ih s).2 n hn
          refine ⟨c, ?_, hnc⟩
          simp only [installedCatalogs, List.filterMap_cons,
            List.mem_cons] at hc ⊢
          tauto
    | size =>
      constructor
      · intro g hg
        simp only [runOps, List.mem_cons] at hg
        rcases hg with hg | hg
        · cases hg
        · obtain ⟨c, hc, hgc⟩ := (ih s).1 g hg
          refine ⟨c, ?_, hgc⟩
          simp only [installedCatalogs, List.filterMap_cons,
            List.mem_cons] at hc ⊢
          tauto
      · intro n hn
        simp only [runOps, List.mem_cons] at hn
        rcases hn with hn | hn
        · refine ⟨s.games, ?_, by cases hn; rfl⟩
          simp [installedCatalogs]
        · obtain ⟨c, hc, hnc⟩ := (ih s).2 n hn
          refine ⟨c, ?_, hnc⟩
          simp only [installedCatalogs, List.filterMap_cons,
            List.mem_cons] at hc ⊢
          tauto

/-- Witness for C9: a replace of a 3-item catalog races two samples from
a 2-item catalog; the later sample's result lies in a complete installed
catalog. -/
theorem runOps_snapshot_consistent_witness :
    OpResult.sampled ⟨5, "", "", "", "", "", "", "", "", ""⟩ true ∈
        runOps ⟨[⟨1, "", "", "", "", "", "", "", "", ""⟩,
                 ⟨2, "", "", "", "", "", "", "", "", ""⟩]⟩
          [.sample 0,
           .replace [⟨3, "", "", "", "", "", "", "", "", ""⟩,
                     ⟨4, "", "", "", "", "", "", "", "", ""⟩,
                     ⟨5, "", "", "", "", "", "", "", "", ""⟩],
           .sample 2] ∧
      ∃ c ∈ installedCatalogs
          ⟨[⟨1, "", "", "", "", "", "", "", "", ""⟩,
            ⟨2, "", "", "", "", "", "", "", "", ""⟩]⟩
          [.sample 0,
           .replace [⟨3, "", "", "", "", "", "", "", "", ""⟩,
                     ⟨4, "", "", "", "", "", "", "", "", ""⟩,
                     ⟨5, "", "", "", "", "", "", "", "", ""⟩],
           .sample 2],
        (⟨5, "", "", "", "", "", "", "", "", ""⟩ : Game) ∈ c :=
  ⟨by decide,
   (runOps_snapshot_consistent
      ⟨[⟨1, "", "", "", "", "", "", "", "", ""⟩,
        ⟨2, "", "", "", "", "", "", "", "", ""⟩]⟩
      [.sample 0,
       .replace [⟨3, "", "", "", "", "", "", "", "", ""⟩,
                 ⟨4, "", "", "", "", "", "", "", "", ""⟩,
                 ⟨5, "", "", "", "", "", "", "", "", ""⟩],
       .sample 2]).1
     ⟨5, "", "", "", "", "", "", "", "", ""⟩ (by decide)⟩
